import Mathlib

/-!
Verification of `isekai_simulation.py`, a linear text-driven interactive
fiction engine.  The Python module is shallowly embedded below:

* Python `Dict[str, int]` attribute mappings become ordered association
  lists (`AttrMap`), with `getAttr` modelling `dict.get(k, 0)` and
  `setAttr` modelling `dict[k] = v` (update in place, append when absent),
  matching insertion-ordered Python dict semantics.
* Python `int` becomes `Int`; Python floor division `//` becomes `Int.fdiv`.
* `random.randint(a, b)` rolls are passed in as explicit parameters; the
  bounds `a ≤ roll ≤ b` appear as hypotheses where a claim depends on them.
* Interactive input (`solicitar_indice`) is modelled over a finite list of
  already-parsed input attempts: `none` stands for a line on which Python
  `int()` raises `ValueError`, `some n` for a line parsing to the integer
  `n`.  The function returns `none` when the list is exhausted (the Python
  loop would keep prompting).
* `textwrap.fill(text, width=88)` (the repository's `wrap`) is modelled by
  the greedy word-wrap `wrap`: split on spaces, pack words greedily into
  lines of at most 88 characters joined by single spaces.  This matches
  CPython's `textwrap.fill` on texts whose whitespace consists of single
  spaces and whose words contain no hyphens and do not exceed the width —
  which holds for every string the program passes to it (CPython
  additionally splits at hyphens and breaks words longer than the width).
* `str.capitalize`, `str.lower` and the `{n:+d}` format are modelled for
  the ASCII data the program uses.
-/

/-- Greedy line filling: pack `ws` into lines of width at most `width`,
words on a line being separated by one space.  `cur` is the reversed list
of words of the line being built, `curLen` its rendered length. -/
def fillAux (width : Nat) : List String → List String → Nat → List (List String)
  | [], cur, _ => [cur.reverse]
  | w :: rest, [], _ => fillAux width rest [w] w.length
  | w :: rest, cur, curLen =>
    if curLen + 1 + w.length ≤ width then
      fillAux width rest (w :: cur) (curLen + 1 + w.length)
    else
      cur.reverse :: fillAux width rest [w] w.length

/-- Break a text into its space-separated words. -/
def splitWords (text : String) : List String :=
  ((text.data.splitOn ' ').filter (fun w => w ≠ [])).map (fun w => String.mk w)

/-- Model of the repository's `wrap` (`textwrap.fill(text, width=88)`):
break the text into words at single spaces, refill greedily to width 88,
and join the lines with newlines. -/
def wrap (text : String) : String :=
  String.intercalate "\n" ((fillAux 88 (splitWords text) [] 0).map (String.intercalate " "))

/-- Model of Python `str.capitalize()` for ASCII strings: first character
uppercased, the rest lowercased. -/
def capitalize (s : String) : String :=
  match s.data with
  | [] => ""
  | c :: rest => String.mk (c.toUpper :: rest.map Char.toLower)

/-- Model of the Python format `f"{n:+d}"`: always show the sign. -/
def signedFormat (n : Int) : String :=
  if 0 ≤ n then "+" ++ toString n else toString n

/-- A Python `Dict[str, int]` as an insertion-ordered association list. -/
abbrev AttrMap := List (String × Int)

/-- `m.get(k, 0)`: value of the first entry with key `k`, defaulting to 0. -/
def getAttr (m : AttrMap) (k : String) : Int :=
  match m.find? (fun kv => kv.1 == k) with
  | some kv => kv.2
  | none => 0

/-- `m[k] = v`: replace the first entry with key `k` in place, or append a
new entry at the end when the key is absent. -/
def setAttr (m : AttrMap) (k : String) (v : Int) : AttrMap :=
  match m with
  | [] => [(k, v)]
  | kv :: rest => if kv.1 == k then (k, v) :: rest else kv :: setAttr rest k v

/-- `Escolha`: an option the player can select (name, description, and a
small map of attribute deltas). -/
structure Escolha where
  nome : String
  descricao : String
  atributos : AttrMap
  deriving Repr, DecidableEq

/-- `Personagem`: the player character's current state.  The default
attribute mapping and counters are those of the Python dataclass. -/
structure Personagem where
  nome : String
  mundo : Escolha
  origem : Escolha
  poder : Escolha
  legado : Escolha
  atributos : AttrMap := [("vigor", 0), ("mana", 0), ("sorte", 0), ("carisma", 0)]
  gloria : Int := 0
  cicatrizes : Int := 0
  deriving Repr, DecidableEq

/-- One pass of the inner loop of `aplicar_escolhas`:
`atributos[chave] = atributos.get(chave, 0) + valor` for each delta. -/
def aplicarAtributos (m : AttrMap) (deltas : AttrMap) : AttrMap :=
  deltas.foldl (fun acc kv => setAttr acc kv.1 (getAttr acc kv.1 + kv.2)) m

/-- The fold of `aplicar_escolhas` over a list of options. -/
def aplicarLista (m : AttrMap) (l : List Escolha) : AttrMap :=
  l.foldl (fun mm e => aplicarAtributos mm e.atributos) m

/-- `Personagem.aplicar_escolhas`: fold the attribute deltas of the four
selected options (world, origin, power, legacy) into the attributes. -/
def Personagem.aplicar_escolhas (p : Personagem) : Personagem :=
  { p with atributos := aplicarLista p.atributos [p.mundo, p.origem, p.poder, p.legado] }

/-- The "legend" tier template (`diferenca >= 3`). -/
def textoLenda : String :=
  "Você se torna uma lenda viva, venerado em canções e invocado" ++
    " como patrono de heróis por gerações."

/-- The "fond memory" tier template (`diferenca >= 1`). -/
def textoMemoria : String :=
  "Sua jornada foi marcada por vitórias e amizades sinceras;" ++
    " seu nome permanece em memória nas guildas locais."

/-- The "balance" tier template (`diferenca == 0`). -/
def textoEquilibrio : String :=
  "Você encontra um equilíbrio delicado entre desafios e glórias," ++
    " levando uma vida tranquila mas cheia de histórias para contar."

/-- The "resilience" tier template (the remaining case, `diferenca < 0`). -/
def textoResistencia : String :=
  "As cicatrizes acumuladas cobram seu preço. Ainda assim," ++
    " você segue firme, provando que coragem também é resistir."

/-- The narrative template selected by the `if` chain of
`Personagem.epilogo` from `diferenca = gloria - cicatrizes`. -/
def destino (diferenca : Int) : String :=
  if diferenca ≥ 3 then textoLenda
  else if diferenca ≥ 1 then textoMemoria
  else if diferenca = 0 then textoEquilibrio
  else textoResistencia

/-- The attribute summary of the epilogue:
`", ".join(f"{chave.capitalize()}: {valor}" ...)`. -/
def Personagem.resumoAtributos (p : Personagem) : String :=
  String.intercalate ", "
    (p.atributos.map (fun kv => capitalize kv.1 ++ ": " ++ toString kv.2))

/-- The full epilogue text before line wrapping (the f-string argument of
`wrap` in `Personagem.epilogo`). -/
def Personagem.epilogoConteudo (p : Personagem) : String :=
  "No fim da aventura, " ++ p.nome ++ " registra " ++ toString p.gloria ++
    " feitos gloriosos e " ++ toString p.cicatrizes ++
    " cicatrizes memoráveis. " ++ destino (p.gloria - p.cicatrizes) ++
    " A síntese do seu potencial: " ++ p.resumoAtributos ++ "."

/-- `Personagem.epilogo`: the wrapped epilogue text. -/
def Personagem.epilogo (p : Personagem) : String :=
  wrap p.epilogoConteudo

/-- `Evento`: a scripted event with a fixed list of options
`(identificador, texto, resultado)`. -/
structure Evento where
  titulo : String
  descricao : String
  escolhas : List (String × String × String)
  deriving Repr, DecidableEq

/-- `Evento._narrativa`: the dynamic text of an outcome, plus the updated
character (the mystic branch increments the stored mana by 1).  `roll` is
the branch's `random.randint` result. -/
def Evento.narrativa (resultado : String) (p : Personagem) (roll : Int) :
    String × Personagem :=
  let sorte := getAttr p.atributos "sorte"
  let mana := getAttr p.atributos "mana"
  let carisma := getAttr p.atributos "carisma"
  let vigor := getAttr p.atributos "vigor"
  if resultado == "gloria" then
    let bonus := roll + (max sorte carisma).fdiv 2
    ("O mundo sorri para você. Seus aliados celebram, e o deus Gem" ++
      " concede uma bênção adicional de " ++ toString bonus ++
      " pontos de inspiração.", p)
  else if resultado == "cicatriz" then
    let penalidade := roll - (min vigor sorte).fdiv 3
    ("O desafio cobra seu preço; uma nova cicatriz surge, mas também" ++
      " deixa lições que reforçam sua determinação (" ++
      signedFormat penalidade ++ ").", p)
  else if resultado == "mistico" then
    let retorno := roll + mana
    let p' := { p with atributos := setAttr p.atributos "mana" (getAttr p.atributos "mana" + 1) }
    ("Seu poder místico pulsa intensamente, revelando segredos antigos." ++
      " Você acumula " ++ toString retorno ++
      " ecos arcanos e aperfeiçoa sua mana.", p')
  else
    ("As engrenagens do destino giram silenciosamente dessa vez.", p)

/-- Model of Python `str.lower()` for the ASCII data the program uses. -/
def pyLower (s : String) : String :=
  String.mk (s.data.map Char.toLower)

/-- `Evento.resolver`: resolve the option at (0-based) index `idx`,
returning the outcome tag, the wrapped narration, and the updated
character.  `none` models the out-of-range indexing Python never reaches
(indices come from `solicitar_indice`, which validates them). -/
def Evento.resolver (e : Evento) (p : Personagem) (idx : Nat) (roll : Int) :
    Option (String × String × Personagem) :=
  (e.escolhas[idx]?).map (fun esc =>
    let texto := esc.2.1
    let resultado := esc.2.2
    let narr := Evento.narrativa resultado p roll
    (resultado, wrap ("Você opta por " ++ pyLower texto ++ ". " ++ narr.1), narr.2))

/-- `Personagem.resolver_evento`: resolve an event and update the glory or
scars counter according to the outcome tag. -/
def Personagem.resolver_evento (p : Personagem) (e : Evento) (idx : Nat) (roll : Int) :
    Option (String × Personagem) :=
  (e.resolver p idx roll).map (fun r =>
    let resultado := r.1
    let descricao := r.2.1
    let p' := r.2.2
    if resultado == "gloria" then (descricao, { p' with gloria := p'.gloria + 1 })
    else if resultado == "cicatriz" then (descricao, { p' with cicatrizes := p'.cicatrizes + 1 })
    else (descricao, p'))

/-- `solicitar_indice`: keep consuming input attempts until one parses to
an integer `n` with `0 ≤ n - 1 < total`; return that 0-based index.  An
attempt of `none` is a line on which `int()` raises `ValueError`. -/
def solicitar_indice (total : Nat) : List (Option Int) → Option Nat
  | [] => none
  | entrada :: resto =>
    match entrada with
    | none => solicitar_indice total resto
    | some n =>
      let escolha := n - 1
      if 0 ≤ escolha ∧ escolha < (total : Int) then some escolha.toNat
      else solicitar_indice total resto

/-- `apresentar_opcoes`: prompt for a valid index and return the selected
option. -/
def apresentar_opcoes (opcoes : List Escolha) (inputs : List (Option Int)) :
    Option Escolha :=
  (solicitar_indice opcoes.length inputs).bind (fun i => opcoes[i]?)

/-- The static world catalog `MUNDOS`. -/
def MUNDOS : List Escolha :=
  [⟨"Reino de Aerilon",
    "Um mundo onde cidades flutuam e a magia alimenta as rotas comerciais.",
    [("mana", 2), ("carisma", 1)]⟩,
   ⟨"Império Ferromar",
    "Terras forjadas pelo aço e pelo vapor, onde a disciplina fala mais alto.",
    [("vigor", 2)]⟩,
   ⟨"Arquipélago de Lúmen",
    "Ilhas misteriosas protegidas por espíritos ancestrais.",
    [("sorte", 2), ("mana", 1)]⟩]

/-- The static origin catalog `ORIGENS`. -/
def ORIGENS : List Escolha :=
  [⟨"Filho de um Artífice",
    "Você renasce em uma família que domina a tecnologia arcana.",
    [("mana", 1), ("vigor", 1)]⟩,
   ⟨"Herdeiro de Guilda",
    "Uma guilda influente o adota como protegido especial do deus Gem.",
    [("carisma", 2)]⟩,
   ⟨"Caçador Errante",
    "Você desperta em uma caravana que atravessa territórios selvagens.",
    [("vigor", 1), ("sorte", 1)]⟩]

/-- The static power catalog `PODERES`. -/
def PODERES : List Escolha :=
  [⟨"Forja Estelar",
    "Capaz de invocar armas moldadas com energia celeste.",
    [("vigor", 1), ("mana", 2)]⟩,
   ⟨"Eco do Tempo",
    "Permite antecipar possibilidades futuras e evitá-las ou provocá-las.",
    [("sorte", 2)]⟩,
   ⟨"Lira do Coração",
    "Música encantada que inspira aliados e confunde inimigos.",
    [("carisma", 2), ("mana", 1)]⟩]

/-- The static legacy catalog `LEGADOS`. -/
def LEGADOS : List Escolha :=
  [⟨"Guardião Celeste",
    "Você carrega uma promessa de proteger os indefesos em nome de Gem.",
    [("carisma", 1), ("vigor", 1)]⟩,
   ⟨"Sábio Errante",
    "O desejo insaciável por conhecimento o guia por bibliotecas vivas.",
    [("mana", 1), ("sorte", 1)]⟩,
   ⟨"Desafiante do Destino",
    "Você promete confrontar as engrenagens do mundo e vencê-las.",
    [("vigor", 1), ("sorte", 1)]⟩]

/-- The static event list `EVENTOS`. -/
def EVENTOS : List Evento :=
  [⟨"Festival da Reencarnação",
    "O povo celebra sua chegada e o deus Gem oferece um desafio surpresa.",
    [("gloria", "Exibir sua Forja Estelar em um duelo amistoso", "gloria"),
     ("caridade", "Distribuir bênçãos nas feiras com a Lira do Coração", "mistico"),
     ("humildade", "Ajudar discretamente nas barracas comunitárias", "cicatriz")]⟩,
   ⟨"Biblioteca Serpentina",
    "Um labirinto de pergaminhos vivos promete segredos antigos.",
    [("estudo", "Mergulhar nos manuscritos brilhantes", "mistico"),
     ("atalho", "Seguir um espírito guia até uma sala proibida", "gloria"),
     ("retirada", "Recuar ao sentir uma presença hostil", "cicatriz")]⟩,
   ⟨"Provação do Crepúsculo",
    "Um titã elemental desperta ameaçando o povoado que o acolheu.",
    [("combate", "Atacar o titã de frente com coragem", "gloria"),
     ("estrategia", "Coordenar uma retirada ordenada", "cicatriz"),
     ("selo", "Canalizar mana para selar a criatura", "mistico")]⟩]

/-- `preparar_personagem` after the four selections: build the character
and apply the chosen options' bonuses. -/
def preparar_personagem (nome : String) (mundo origem poder legado : Escolha) :
    Personagem :=
  Personagem.aplicar_escolhas
    { nome := nome, mundo := mundo, origem := origem, poder := poder, legado := legado }

/-- One step of `simular_aventura`'s loop: resolve the event, keeping the
previous state on the out-of-range indices Python never reaches. -/
def simularPasso (p : Personagem) (passo : Evento × Nat × Int) : Personagem :=
  match p.resolver_evento passo.1 passo.2.1 passo.2.2 with
  | some r => r.2
  | none => p

/-- A full run from `p`: fold any sequence of event resolutions. -/
def simularAventura (p : Personagem) (passos : List (Evento × Nat × Int)) :
    Personagem :=
  passos.foldl simularPasso p

/-- `contem s pat`: `pat` occurs as a contiguous substring of `s`. -/
def contem (s pat : String) : Prop :=
  pat.data <:+: s.data

instance (s pat : String) : Decidable (contem s pat) :=
  List.decidableInfix pat.data s.data

/-- Sum of the deltas an attribute-delta mapping assigns to key `k`
(0 when the key is absent; a Python dict holds each key at most once). -/
def deltaSoma (ds : AttrMap) (k : String) : Int :=
  ((ds.filter (fun kv => kv.1 == k)).map (fun kv => kv.2)).sum

/-- Every attribute entry and both counters of the character are
non-negative. -/
def NaoNegativo (p : Personagem) : Prop :=
  (∀ kv ∈ p.atributos, 0 ≤ kv.2) ∧ 0 ≤ p.gloria ∧ 0 ≤ p.cicatrizes

/-- Placeholder option used only to spell out concrete list elements. -/
def escolhaVazia : Escolha := ⟨"", "", []⟩

/-- Placeholder event used only to spell out concrete list elements. -/
def eventoVazio : Evento := ⟨"", "", []⟩

/-- A concrete full run: player name `"A BBBBBBBBBBBB"`, choices
Império Ferromar / Herdeiro de Guilda / Forja Estelar / Desafiante do
Destino, and the glory option of each of the three scripted events
(rolls of 1).  Final state: gloria 3, cicatrizes 0, attributes
vigor 4, mana 2, sorte 1, carisma 2. -/
def exemploC9 : Personagem :=
  simularAventura
    (preparar_personagem "A BBBBBBBBBBBB" (MUNDOS.getD 1 escolhaVazia)
      (ORIGENS.getD 1 escolhaVazia) (PODERES.getD 0 escolhaVazia)
      (LEGADOS.getD 2 escolhaVazia))
    [(EVENTOS.getD 0 eventoVazio, 0, 1),
     (EVENTOS.getD 1 eventoVazio, 1, 1),
     (EVENTOS.getD 2 eventoVazio, 0, 1)]

/-- A freshly created character with placeholder choices and the default
attribute mapping, used as a concrete test subject. -/
def personagemTeste : Personagem :=
  { nome := "X", mundo := escolhaVazia, origem := escolhaVazia,
    poder := escolhaVazia, legado := escolhaVazia }

theorem getAttr_nil (k : String) : getAttr [] k = 0 := rfl

theorem getAttr_cons (kv : String × Int) (m : AttrMap) (k : String) :
    getAttr (kv :: m) k = if kv.1 = k then kv.2 else getAttr m k := by
  by_cases h : kv.1 = k
  · have hb : (kv.1 == k) = true := by simp [h]
    simp [getAttr, List.find?, hb, h]
  · have hb : (kv.1 == k) = false := by simp [h]
    simp [getAttr, List.find?, hb, h]

theorem setAttr_nil (k : String) (v : Int) : setAttr [] k v = [(k, v)] := rfl

theorem setAttr_cons (kv : String × Int) (m : AttrMap) (k : String) (v : Int) :
    setAttr (kv :: m) k v = if kv.1 = k then (k, v) :: m else kv :: setAttr m k v := by
  by_cases h : kv.1 = k
  · have hb : (kv.1 == k) = true := by simp [h]
    simp [setAttr, hb, h]
  · have hb : (kv.1 == k) = false := by simp [h]
    simp [setAttr, hb, h]

theorem getAttr_setAttr (m : AttrMap) (k k' : String) (v : Int) :
    getAttr (setAttr m k v) k' = if k = k' then v else getAttr m k' := by
  induction m with
  | nil =>
    by_cases h : k = k' <;> simp [setAttr_nil, getAttr_cons, getAttr_nil, h]
  | cons kv rest ih =>
    rw [setAttr_cons]
    by_cases h1 : kv.1 = k
    · rw [if_pos h1, getAttr_cons, getAttr_cons]
      by_cases h2 : k = k' <;> simp [h1, h2]
    · rw [if_neg h1, getAttr_cons, getAttr_cons, ih]
      by_cases h2 : k = k'
      · rw [if_pos h2, if_neg (h2 ▸ h1), if_pos h2]
      · rw [if_neg h2, if_neg h2]

theorem deltaSoma_nil (k : String) : deltaSoma [] k = 0 := rfl

theorem deltaSoma_cons (kv : String × Int) (ds : AttrMap) (k : String) :
    deltaSoma (kv :: ds) k = (if kv.1 = k then kv.2 else 0) + deltaSoma ds k := by
  by_cases h : kv.1 = k
  · have hb : (kv.1 == k) = true := by simp [h]
    simp [deltaSoma, List.filter, hb, h]
  · have hb : (kv.1 == k) = false := by simp [h]
    simp [deltaSoma, List.filter, hb, h]

theorem aplicarAtributos_nil (m : AttrMap) : aplicarAtributos m [] = m := rfl

theorem aplicarAtributos_cons (m : AttrMap) (kv : String × Int) (ds : AttrMap) :
    aplicarAtributos m (kv :: ds) =
      aplicarAtributos (setAttr m kv.1 (getAttr m kv.1 + kv.2)) ds := rfl

theorem getAttr_aplicarAtributos (ds : AttrMap) (m : AttrMap) (k : String) :
    getAttr (aplicarAtributos m ds) k = getAttr m k + deltaSoma ds k := by
  induction ds generalizing m with
  | nil => simp [aplicarAtributos_nil, deltaSoma_nil]
  | cons kv rest ih =>
    rw [aplicarAtributos_cons, ih, getAttr_setAttr, deltaSoma_cons]
    by_cases h : kv.1 = k
    · rw [if_pos h, if_pos h, h]; ring
    · rw [if_neg h, if_neg h]; ring

theorem aplicarLista_nil (m : AttrMap) : aplicarLista m [] = m := rfl

theorem aplicarLista_cons (m : AttrMap) (e : Escolha) (l : List Escolha) :
    aplicarLista m (e :: l) = aplicarLista (aplicarAtributos m e.atributos) l := rfl

theorem getAttr_aplicarLista (l : List Escolha) (m : AttrMap) (k : String) :
    getAttr (aplicarLista m l) k
      = getAttr m k + (l.map (fun e => deltaSoma e.atributos k)).sum := by
  induction l generalizing m with
  | nil => simp [aplicarLista_nil]
  | cons e rest ih =>
    rw [aplicarLista_cons, ih, getAttr_aplicarAtributos]
    simp
    ring

theorem getAttr_padrao (k : String) :
    getAttr [("vigor", 0), ("mana", 0), ("sorte", 0), ("carisma", 0)] k = 0 := by
  rw [getAttr_cons, getAttr_cons, getAttr_cons, getAttr_cons, getAttr_nil]
  split_ifs <;> rfl

/-- Claim C5: after character creation the attribute value at every key
equals the sum of that key's deltas over the four selected options
(a missing delta counts 0, via `deltaSoma`), and the aggregation is total
and commutative: folding the options' deltas in any permuted order yields
the same value at every key. -/
theorem aplicar_escolhas_soma :
    (∀ (nome : String) (mu ori po le : Escolha) (k : String),
      getAttr (preparar_personagem nome mu ori po le).atributos k
        = deltaSoma mu.atributos k + deltaSoma ori.atributos k
          + deltaSoma po.atributos k + deltaSoma le.atributos k)
    ∧ (∀ (l l' : List Escolha) (m : AttrMap) (k : String), l.Perm l' →
        getAttr (aplicarLista m l) k = getAttr (aplicarLista m l') k) := by
  constructor
  · intro nome mu ori po le k
    show getAttr (aplicarLista _ [mu, ori, po, le]) k = _
    rw [getAttr_aplicarLista, getAttr_padrao]
    simp
    ring
  · intro l l' m k h
    rw [getAttr_aplicarLista, getAttr_aplicarLista,
      List.Perm.sum_eq (h.map (fun e => deltaSoma e.atributos k))]

theorem aplicar_escolhas_soma_witness :
    getAttr (aplicarLista [] [⟨"a", "", [("x", 1)]⟩, ⟨"b", "", [("x", 2)]⟩]) "x"
      = getAttr (aplicarLista [] [⟨"b", "", [("x", 2)]⟩, ⟨"a", "", [("x", 1)]⟩]) "x" :=
  aplicar_escolhas_soma.2 _ _ [] "x"
    (List.Perm.swap (⟨"b", "", [("x", 2)]⟩ : Escolha) (⟨"a", "", [("x", 1)]⟩ : Escolha) [])

theorem solicitar_indice_nil (total : Nat) : solicitar_indice total [] = none := rfl

theorem solicitar_indice_none (total : Nat) (resto : List (Option Int)) :
    solicitar_indice total (none :: resto) = solicitar_indice total resto := rfl

theorem solicitar_indice_some (total : Nat) (n : Int) (resto : List (Option Int)) :
    solicitar_indice total (some n :: resto)
      = if 0 ≤ n - 1 ∧ n - 1 < (total : Int) then some (n - 1).toNat
        else solicitar_indice total resto := rfl

/-- Claim C6: entering a valid 1-based index `i` (with `1 ≤ i ≤ number of
options) makes `solicitar_indice` return `i - 1` at once, and
`apresentar_opcoes` then returns the `(i-1)`-th option of the menu. -/
theorem selecao_indice_valido (opcoes : List Escolha) (resto : List (Option Int))
    (i : Nat) (h1 : 1 ≤ i) (h2 : i ≤ opcoes.length) :
    solicitar_indice opcoes.length (some (i : Int) :: resto) = some (i - 1)
    ∧ ∃ h : i - 1 < opcoes.length,
        apresentar_opcoes opcoes (some (i : Int) :: resto) = some (opcoes.get ⟨i - 1, h⟩) := by
  have hcond : 0 ≤ (i : Int) - 1 ∧ (i : Int) - 1 < (opcoes.length : Int) := by omega
  have hidx : ((i : Int) - 1).toNat = i - 1 := by omega
  have hsel : solicitar_indice opcoes.length (some (i : Int) :: resto) = some (i - 1) := by
    rw [solicitar_indice_some, if_pos hcond, hidx]
  have hlt : i - 1 < opcoes.length := by omega
  refine ⟨hsel, hlt, ?_⟩
  rw [apresentar_opcoes, hsel]
  simp [List.getElem?_eq_getElem hlt]

theorem selecao_indice_valido_witness :
    solicitar_indice 2 [some 2] = some 1
    ∧ ∃ h : 1 < [escolhaVazia, escolhaVazia].length,
        apresentar_opcoes [escolhaVazia, escolhaVazia] [some 2]
          = some ([escolhaVazia, escolhaVazia].get ⟨1, h⟩) :=
  selecao_indice_valido [escolhaVazia, escolhaVazia] [] 2 (by decide) (by decide)

/-- Claim C7: a failed parse (`none`) or an out-of-range integer makes the
prompt loop recurse on the remaining input unchanged, and any index it
ever returns is strictly below the option count. -/
theorem entrada_invalida_repete (total : Nat) :
    (∀ resto, solicitar_indice total (none :: resto) = solicitar_indice total resto)
    ∧ (∀ (n : Int) resto, ¬(0 ≤ n - 1 ∧ n - 1 < (total : Int)) →
        solicitar_indice total (some n :: resto) = solicitar_indice total resto)
    ∧ (∀ entradas idx, solicitar_indice total entradas = some idx → idx < total) := by
  refine ⟨fun _ => rfl, fun n resto h => by rw [solicitar_indice_some, if_neg h], ?_⟩
  intro entradas
  induction entradas with
  | nil => intro idx h; rw [solicitar_indice_nil] at h; exact absurd h (by simp)
  | cons e resto ih =>
    intro idx h
    match e with
    | none => exact ih idx (by rwa [solicitar_indice_none] at h)
    | some n =>
      rw [solicitar_indice_some] at h
      by_cases hc : 0 ≤ n - 1 ∧ n - 1 < (total : Int)
      · rw [if_pos hc] at h
        have : (n - 1).toNat = idx := by exact Option.some.inj h
        omega
      · rw [if_neg hc] at h
        exact ih idx h

theorem entrada_invalida_repete_witness :
    solicitar_indice 3 [none, some 2] = solicitar_indice 3 [some 2]
    ∧ solicitar_indice 3 [some 7, some 2] = solicitar_indice 3 [some 2] :=
  ⟨(entrada_invalida_repete 3).1 [some 2],
   (entrada_invalida_repete 3).2.1 7 [some 2] (by decide)⟩

theorem contem_self (s : String) : contem s s :=
  ⟨[], [], by simp⟩

theorem contem_append_left (s t pat : String) (h : contem s pat) :
    contem (s ++ t) pat := by
  obtain ⟨u, v, huv⟩ := h
  exact ⟨u, v ++ t.data, by rw [String.data_append, ← huv]; simp⟩

theorem contem_append_right (s t pat : String) (h : contem t pat) :
    contem (s ++ t) pat := by
  obtain ⟨u, v, huv⟩ := h
  exact ⟨s.data ++ u, v, by rw [String.data_append, ← huv]; simp⟩

theorem contem_prefixo (s t : String) : contem (s ++ t) s :=
  contem_append_left s t s (contem_self s)

/-- Claim C1: the epilogue picks exactly one of the four fixed narrative
templates from `diferenca = gloria - cicatrizes`: the legend tier for
`diferenca ≥ 3`, the fond-memory tier for `1 ≤ diferenca < 3`, the balance
tier for `diferenca = 0` and the resilience tier for `diferenca < 0`; the
four templates are pairwise distinct, the selected one occurs in the
epilogue text, `gloria = 4, cicatrizes = 1` selects the legend tier and
`gloria = cicatrizes` the balance tier. -/
theorem epilogo_escolhe_destino (p : Personagem) :
    (p.gloria - p.cicatrizes ≥ 3 → destino (p.gloria - p.cicatrizes) = textoLenda)
    ∧ (1 ≤ p.gloria - p.cicatrizes → p.gloria - p.cicatrizes < 3 →
        destino (p.gloria - p.cicatrizes) = textoMemoria)
    ∧ (p.gloria - p.cicatrizes = 0 → destino (p.gloria - p.cicatrizes) = textoEquilibrio)
    ∧ (p.gloria - p.cicatrizes < 0 → destino (p.gloria - p.cicatrizes) = textoResistencia)
    ∧ (textoLenda ≠ textoMemoria ∧ textoLenda ≠ textoEquilibrio
        ∧ textoLenda ≠ textoResistencia ∧ textoMemoria ≠ textoEquilibrio
        ∧ textoMemoria ≠ textoResistencia ∧ textoEquilibrio ≠ textoResistencia)
    ∧ contem p.epilogoConteudo (destino (p.gloria - p.cicatrizes))
    ∧ (p.gloria = 4 → p.cicatrizes = 1 → destino (p.gloria - p.cicatrizes) = textoLenda)
    ∧ (p.gloria = p.cicatrizes → destino (p.gloria - p.cicatrizes) = textoEquilibrio) := by
  refine ⟨?_, ?_, ?_, ?_, by decide, ?_, ?_, ?_⟩
  · intro h; rw [destino, if_pos h]
  · intro h1 h3; rw [destino, if_neg (by omega), if_pos h1]
  · intro h; rw [destino, if_neg (by omega), if_neg (by omega), if_pos h]
  · intro h; rw [destino, if_neg (by omega), if_neg (by omega), if_neg (by omega)]
  · rw [Personagem.epilogoConteudo]
    apply contem_append_left
    apply contem_append_left
    apply contem_append_left
    exact contem_append_right _ _ _ (contem_self _)
  · intro h4 h1; rw [destino, if_pos (by omega)]
  · intro h; rw [destino, if_neg (by omega), if_neg (by omega), if_pos (by omega)]

theorem epilogo_escolhe_destino_witness :
    destino ((4 : Int) - 1) = textoLenda :=
  (epilogo_escolhe_destino
    { nome := "G", mundo := escolhaVazia, origem := escolhaVazia,
      poder := escolhaVazia, legado := escolhaVazia, gloria := 4,
      cicatrizes := 1 }).2.2.2.2.2.2.1 rfl rfl

theorem narrativa_mistico (p : Personagem) (roll : Int) :
    Evento.narrativa "mistico" p roll =
      ("Seu poder místico pulsa intensamente, revelando segredos antigos." ++
        " Você acumula " ++ toString (roll + getAttr p.atributos "mana") ++
        " ecos arcanos e aperfeiçoa sua mana.",
       { p with atributos := setAttr p.atributos "mana" (getAttr p.atributos "mana" + 1) }) := by
  simp [Evento.narrativa]

theorem narrativa_gloria (p : Personagem) (roll : Int) :
    Evento.narrativa "gloria" p roll =
      ("O mundo sorri para você. Seus aliados celebram, e o deus Gem" ++
        " concede uma bênção adicional de " ++
        toString (roll + (max (getAttr p.atributos "sorte") (getAttr p.atributos "carisma")).fdiv 2) ++
        " pontos de inspiração.", p) := by
  simp [Evento.narrativa]

theorem narrativa_cicatriz (p : Personagem) (roll : Int) :
    Evento.narrativa "cicatriz" p roll =
      ("O desafio cobra seu preço; uma nova cicatriz surge, mas também" ++
        " deixa lições que reforçam sua determinação (" ++
        signedFormat (roll - (min (getAttr p.atributos "vigor") (getAttr p.atributos "sorte")).fdiv 3) ++
        ").", p) := by
  simp [Evento.narrativa]

theorem contem_meio (x pat y : String) : contem (x ++ pat ++ y) pat :=
  contem_append_left _ _ _ (contem_append_right _ _ _ (contem_self _))

/-- Claim C2: resolving an event option tagged `mistico` increments the
stored mana attribute by exactly 1, leaves both the `gloria` and
`cicatrizes` counters unchanged, and the narration reports an arcane echo
equal to the `randint(1, 6)` roll plus the mana the character had on
entry.  Stated for every character and every roll. -/
theorem resolver_mistico (p : Personagem) (e : Evento) (idx : Nat) (roll : Int)
    (ident texto : String) (hesc : e.escolhas[idx]? = some (ident, texto, "mistico")) :
    ∃ desc p', p.resolver_evento e idx roll = some (desc, p')
      ∧ getAttr p'.atributos "mana" = getAttr p.atributos "mana" + 1
      ∧ p'.gloria = p.gloria ∧ p'.cicatrizes = p.cicatrizes
      ∧ contem (Evento.narrativa "mistico" p roll).1
          ("Você acumula " ++ toString (roll + getAttr p.atributos "mana") ++ " ecos arcanos") := by
  refine ⟨wrap ("Você opta por " ++ pyLower texto ++ ". " ++ (Evento.narrativa "mistico" p roll).1),
    { p with atributos := setAttr p.atributos "mana" (getAttr p.atributos "mana" + 1) },
    ?_, ?_, rfl, rfl, ?_⟩
  · simp [Personagem.resolver_evento, Evento.resolver, hesc, narrativa_mistico]
  · show getAttr (setAttr p.atributos "mana" (getAttr p.atributos "mana" + 1)) "mana" = _
    rw [getAttr_setAttr, if_pos rfl]
  · rw [narrativa_mistico]
    show contem _ _
    have h1 : (" Você acumula " : String) = " " ++ "Você acumula " := rfl
    have h2 : (" ecos arcanos e aperfeiçoa sua mana." : String)
        = " ecos arcanos" ++ " e aperfeiçoa sua mana." := rfl
    have heq : ("Seu poder místico pulsa intensamente, revelando segredos antigos." ++
          " Você acumula " ++ toString (roll + getAttr p.atributos "mana") ++
          " ecos arcanos e aperfeiçoa sua mana." : String)
        = ("Seu poder místico pulsa intensamente, revelando segredos antigos." ++ " ")
          ++ ("Você acumula " ++ toString (roll + getAttr p.atributos "mana") ++ " ecos arcanos")
          ++ " e aperfeiçoa sua mana." := by
      rw [h1, h2]
      apply String.ext
      simp [String.data_append]
    rw [heq]
    exact contem_meio _ _ _

theorem resolver_mistico_witness :
    ∃ desc p', personagemTeste.resolver_evento (EVENTOS.getD 1 eventoVazio) 0 4 = some (desc, p')
      ∧ getAttr p'.atributos "mana" = getAttr personagemTeste.atributos "mana" + 1
      ∧ p'.gloria = personagemTeste.gloria ∧ p'.cicatrizes = personagemTeste.cicatrizes
      ∧ contem (Evento.narrativa "mistico" personagemTeste 4).1
          ("Você acumula " ++ toString ((4 : Int) + getAttr personagemTeste.atributos "mana")
            ++ " ecos arcanos") :=
  resolver_mistico personagemTeste (EVENTOS.getD 1 eventoVazio) 0 4
    "estudo" "Mergulhar nos manuscritos brilhantes" (by decide)

/-- Claim C3: resolving an event option tagged `gloria` increments
`Personagem.gloria` by exactly 1, and the narration reports a bonus equal
to the `randint(0, 2)` roll plus `max(sorte, carisma) // 2` (floor
division, `Int.fdiv`) over the character's current attributes, with a
missing attribute reading as 0 (`getAttr`).  Stated for every character
and every roll. -/
theorem resolver_gloria (p : Personagem) (e : Evento) (idx : Nat) (roll : Int)
    (ident texto : String) (hesc : e.escolhas[idx]? = some (ident, texto, "gloria")) :
    ∃ desc p', p.resolver_evento e idx roll = some (desc, p')
      ∧ p'.gloria = p.gloria + 1
      ∧ contem (Evento.narrativa "gloria" p roll).1
          ("concede uma bênção adicional de "
            ++ toString (roll + (max (getAttr p.atributos "sorte") (getAttr p.atributos "carisma")).fdiv 2)
            ++ " pontos de inspiração") := by
  refine ⟨wrap ("Você opta por " ++ pyLower texto ++ ". " ++ (Evento.narrativa "gloria" p roll).1),
    { p with gloria := p.gloria + 1 }, ?_, rfl, ?_⟩
  · simp [Personagem.resolver_evento, Evento.resolver, hesc, narrativa_gloria]
  · rw [narrativa_gloria]
    show contem _ _
    have h1 : ("O mundo sorri para você. Seus aliados celebram, e o deus Gem" : String)
        ++ " concede uma bênção adicional de "
        = ("O mundo sorri para você. Seus aliados celebram, e o deus Gem" ++ " ")
          ++ "concede uma bênção adicional de " := by
      apply String.ext
      simp [String.data_append]
    have h2 : (" pontos de inspiração." : String) = " pontos de inspiração" ++ "." := rfl
    have heq : ("O mundo sorri para você. Seus aliados celebram, e o deus Gem" ++
          " concede uma bênção adicional de "
          ++ toString (roll + (max (getAttr p.atributos "sorte") (getAttr p.atributos "carisma")).fdiv 2)
          ++ " pontos de inspiração." : String)
        = ("O mundo sorri para você. Seus aliados celebram, e o deus Gem" ++ " ")
          ++ ("concede uma bênção adicional de "
            ++ toString (roll + (max (getAttr p.atributos "sorte") (getAttr p.atributos "carisma")).fdiv 2)
            ++ " pontos de inspiração")
          ++ "." := by
      rw [h2]
      apply String.ext
      simp [String.data_append]
    rw [heq]
    exact contem_meio _ _ _

theorem resolver_gloria_witness :
    ∃ desc p', personagemTeste.resolver_evento (EVENTOS.getD 0 eventoVazio) 0 2 = some (desc, p')
      ∧ p'.gloria = personagemTeste.gloria + 1
      ∧ contem (Evento.narrativa "gloria" personagemTeste 2).1
          ("concede uma bênção adicional de "
            ++ toString ((2 : Int) + (max (getAttr personagemTeste.atributos "sorte")
                (getAttr personagemTeste.atributos "carisma")).fdiv 2)
            ++ " pontos de inspiração") :=
  resolver_gloria personagemTeste (EVENTOS.getD 0 eventoVazio) 0 2
    "gloria" "Exibir sua Forja Estelar em um duelo amistoso" (by decide)

/-- Claim C4: resolving an event option tagged `cicatriz` increments
`Personagem.cicatrizes` by exactly 1 and leaves the attribute mapping and
the glory counter exactly as they were: the penalty
`roll - min(vigor, sorte) // 3` appears only inside the narration text,
formatted with an explicit sign. -/
theorem resolver_cicatriz (p : Personagem) (e : Evento) (idx : Nat) (roll : Int)
    (ident texto : String) (hesc : e.escolhas[idx]? = some (ident, texto, "cicatriz")) :
    ∃ desc p', p.resolver_evento e idx roll = some (desc, p')
      ∧ p'.cicatrizes = p.cicatrizes + 1
      ∧ p'.atributos = p.atributos
      ∧ p'.gloria = p.gloria
      ∧ contem (Evento.narrativa "cicatriz" p roll).1
          ("("
            ++ signedFormat (roll - (min (getAttr p.atributos "vigor") (getAttr p.atributos "sorte")).fdiv 3)
            ++ ")") := by
  refine ⟨wrap ("Você opta por " ++ pyLower texto ++ ". " ++ (Evento.narrativa "cicatriz" p roll).1),
    { p with cicatrizes := p.cicatrizes + 1 }, ?_, rfl, rfl, rfl, ?_⟩
  · simp [Personagem.resolver_evento, Evento.resolver, hesc, narrativa_cicatriz]
  · rw [narrativa_cicatriz]
    show contem _ _
    have h1 : ("O desafio cobra seu preço; uma nova cicatriz surge, mas também" : String)
        ++ " deixa lições que reforçam sua determinação ("
        = ("O desafio cobra seu preço; uma nova cicatriz surge, mas também"
            ++ " deixa lições que reforçam sua determinação ")
          ++ "(" := by
      apply String.ext
      simp [String.data_append]
    have heq : ("O desafio cobra seu preço; uma nova cicatriz surge, mas também" ++
          " deixa lições que reforçam sua determinação ("
          ++ signedFormat (roll - (min (getAttr p.atributos "vigor") (getAttr p.atributos "sorte")).fdiv 3)
          ++ ")." : String)
        = ("O desafio cobra seu preço; uma nova cicatriz surge, mas também"
            ++ " deixa lições que reforçam sua determinação ")
          ++ ("("
            ++ signedFormat (roll - (min (getAttr p.atributos "vigor") (getAttr p.atributos "sorte")).fdiv 3)
            ++ ")")
          ++ "." := by
      rw [show (")." : String) = ")" ++ "." from rfl]
      apply String.ext
      simp [String.data_append]
    rw [heq]
    exact contem_meio _ _ _

theorem resolver_cicatriz_witness :
    ∃ desc p', personagemTeste.resolver_evento (EVENTOS.getD 0 eventoVazio) 2 1 = some (desc, p')
      ∧ p'.cicatrizes = personagemTeste.cicatrizes + 1
      ∧ p'.atributos = personagemTeste.atributos
      ∧ p'.gloria = personagemTeste.gloria
      ∧ contem (Evento.narrativa "cicatriz" personagemTeste 1).1
          ("("
            ++ signedFormat ((1 : Int) - (min (getAttr personagemTeste.atributos "vigor")
                (getAttr personagemTeste.atributos "sorte")).fdiv 3)
            ++ ")") :=
  resolver_cicatriz personagemTeste (EVENTOS.getD 0 eventoVazio) 2 1
    "humildade" "Ajudar discretamente nas barracas comunitárias" (by decide)

/-- Claim C10: in the mystic branch the reported arcane echo is computed
from the mana value on entry, before the increment: with entry mana `m`
and a roll in `[1, 6]`, the narration reports `roll + m` (hence a value in
`[1 + m, 6 + m]`) while the stored mana afterwards is `m + 1`. -/
theorem mistico_eco_antes_do_incremento (p : Personagem) (roll : Int)
    (h1 : 1 ≤ roll) (h6 : roll ≤ 6) :
    getAttr (Evento.narrativa "mistico" p roll).2.atributos "mana"
        = getAttr p.atributos "mana" + 1
    ∧ contem (Evento.narrativa "mistico" p roll).1
        ("Você acumula " ++ toString (roll + getAttr p.atributos "mana") ++ " ecos arcanos")
    ∧ 1 + getAttr p.atributos "mana" ≤ roll + getAttr p.atributos "mana"
    ∧ roll + getAttr p.atributos "mana" ≤ 6 + getAttr p.atributos "mana" := by
  refine ⟨?_, ?_, by omega, by omega⟩
  · rw [narrativa_mistico]
    show getAttr (setAttr p.atributos "mana" (getAttr p.atributos "mana" + 1)) "mana" = _
    rw [getAttr_setAttr, if_pos rfl]
  · rw [narrativa_mistico]
    show contem _ _
    have h2 : (" ecos arcanos e aperfeiçoa sua mana." : String)
        = " ecos arcanos" ++ " e aperfeiçoa sua mana." := rfl
    have heq : ("Seu poder místico pulsa intensamente, revelando segredos antigos." ++
          " Você acumula " ++ toString (roll + getAttr p.atributos "mana") ++
          " ecos arcanos e aperfeiçoa sua mana." : String)
        = ("Seu poder místico pulsa intensamente, revelando segredos antigos." ++ " ")
          ++ ("Você acumula " ++ toString (roll + getAttr p.atributos "mana") ++ " ecos arcanos")
          ++ " e aperfeiçoa sua mana." := by
      rw [h2]
      apply String.ext
      simp [String.data_append]
    rw [heq]
    exact contem_meio _ _ _

theorem mistico_eco_antes_do_incremento_witness :
    getAttr (Evento.narrativa "mistico" personagemTeste 6).2.atributos "mana"
        = getAttr personagemTeste.atributos "mana" + 1
    ∧ contem (Evento.narrativa "mistico" personagemTeste 6).1
        ("Você acumula " ++ toString ((6 : Int) + getAttr personagemTeste.atributos "mana")
          ++ " ecos arcanos")
    ∧ 1 + getAttr personagemTeste.atributos "mana"
        ≤ (6 : Int) + getAttr personagemTeste.atributos "mana"
    ∧ (6 : Int) + getAttr personagemTeste.atributos "mana"
        ≤ 6 + getAttr personagemTeste.atributos "mana" :=
  mistico_eco_antes_do_incremento personagemTeste 6 (by decide) (by decide)

theorem getAttr_naoNeg (m : AttrMap) (k : String) (h : ∀ kv ∈ m, 0 ≤ kv.2) :
    0 ≤ getAttr m k := by
  unfold getAttr
  cases hf : List.find? (fun kv => kv.1 == k) m with
  | none => simp
  | some kv => simpa using h kv (List.mem_of_find?_eq_some hf)

theorem setAttr_naoNeg (m : AttrMap) (k : String) (v : Int)
    (hm : ∀ kv ∈ m, 0 ≤ kv.2) (hv : 0 ≤ v) :
    ∀ kv ∈ setAttr m k v, 0 ≤ kv.2 := by
  induction m with
  | nil =>
    intro kv hkv
    rw [setAttr_nil] at hkv
    simp at hkv
    simp [hkv, hv]
  | cons kv0 rest ih =>
    intro kv hkv
    rw [setAttr_cons] at hkv
    by_cases h0 : kv0.1 = k
    · rw [if_pos h0] at hkv
      rcases List.mem_cons.mp hkv with rfl | hmem
      · exact hv
      · exact hm kv (List.mem_cons_of_mem _ hmem)
    · rw [if_neg h0] at hkv
      rcases List.mem_cons.mp hkv with rfl | hmem
      · exact hm kv (List.mem_cons_self _ _)
      · exact ih (fun x hx => hm x (List.mem_cons_of_mem _ hx)) kv hmem

theorem aplicarAtributos_naoNeg (ds m : AttrMap)
    (hm : ∀ kv ∈ m, 0 ≤ kv.2) (hds : ∀ kv ∈ ds, 0 ≤ kv.2) :
    ∀ kv ∈ aplicarAtributos m ds, 0 ≤ kv.2 := by
  induction ds generalizing m with
  | nil => rw [aplicarAtributos_nil]; exact hm
  | cons kv0 rest ih =>
    rw [aplicarAtributos_cons]
    apply ih
    · exact setAttr_naoNeg _ _ _ hm
        (add_nonneg (getAttr_naoNeg _ _ hm) (hds kv0 (List.mem_cons_self _ _)))
    · exact fun x hx => hds x (List.mem_cons_of_mem _ hx)

theorem aplicarLista_naoNeg (l : List Escolha) (m : AttrMap)
    (hm : ∀ kv ∈ m, 0 ≤ kv.2) (hl : ∀ e ∈ l, ∀ kv ∈ e.atributos, 0 ≤ kv.2) :
    ∀ kv ∈ aplicarLista m l, 0 ≤ kv.2 := by
  induction l generalizing m with
  | nil => rw [aplicarLista_nil]; exact hm
  | cons e rest ih =>
    rw [aplicarLista_cons]
    exact ih _ (aplicarAtributos_naoNeg _ _ hm (hl e (List.mem_cons_self _ _)))
      (fun x hx => hl x (List.mem_cons_of_mem _ hx))

theorem narrativa_preserva (r : String) (p : Personagem) (roll : Int)
    (h : ∀ kv ∈ p.atributos, 0 ≤ kv.2) :
    (∀ kv ∈ (Evento.narrativa r p roll).2.atributos, 0 ≤ kv.2)
    ∧ (Evento.narrativa r p roll).2.gloria = p.gloria
    ∧ (Evento.narrativa r p roll).2.cicatrizes = p.cicatrizes := by
  unfold Evento.narrativa
  dsimp only
  split_ifs with h1 h2 h3
  · exact ⟨h, rfl, rfl⟩
  · exact ⟨h, rfl, rfl⟩
  · exact ⟨setAttr_naoNeg p.atributos "mana" (getAttr p.atributos "mana" + 1) h
      (by have := getAttr_naoNeg p.atributos "mana" h; omega), rfl, rfl⟩
  · exact ⟨h, rfl, rfl⟩

theorem resolver_evento_naoNeg (p : Personagem) (e : Evento) (idx : Nat) (roll : Int)
    (h : NaoNegativo p) (desc : String) (p' : Personagem)
    (hre : p.resolver_evento e idx roll = some (desc, p')) : NaoNegativo p' := by
  obtain ⟨ha, hg, hc⟩ := h
  unfold Personagem.resolver_evento Evento.resolver at hre
  cases hesc : e.escolhas[idx]? with
  | none => rw [hesc] at hre; simp at hre
  | some esc =>
    rw [hesc] at hre
    obtain ⟨ha2, hg2, hc2⟩ := narrativa_preserva esc.2.2 p roll ha
    simp only [Option.map_some', Option.some.injEq] at hre
    split_ifs at hre with h1 h2
    · rw [Prod.mk.injEq] at hre
      obtain ⟨-, hp2⟩ := hre
      subst hp2
      refine ⟨?_, ?_, ?_⟩ <;> dsimp only
      · exact ha2
      · rw [hg2]; omega
      · rw [hc2]; exact hc
    · rw [Prod.mk.injEq] at hre
      obtain ⟨-, hp2⟩ := hre
      subst hp2
      refine ⟨?_, ?_, ?_⟩ <;> dsimp only
      · exact ha2
      · rw [hg2]; exact hg
      · rw [hc2]; omega
    · rw [Prod.mk.injEq] at hre
      obtain ⟨-, hp2⟩ := hre
      subst hp2
      exact ⟨ha2, by rw [hg2]; exact hg, by rw [hc2]; exact hc⟩

theorem simularPasso_naoNeg (p : Personagem) (passo : Evento × Nat × Int)
    (h : NaoNegativo p) : NaoNegativo (simularPasso p passo) := by
  unfold simularPasso
  cases hre : p.resolver_evento passo.1 passo.2.1 passo.2.2 with
  | none => exact h
  | some r =>
    dsimp only
    exact resolver_evento_naoNeg p passo.1 passo.2.1 passo.2.2 h r.1 r.2 (by rw [hre])

theorem simularAventura_naoNeg (passos : List (Evento × Nat × Int)) (p : Personagem)
    (h : NaoNegativo p) : NaoNegativo (simularAventura p passos) := by
  induction passos generalizing p with
  | nil => exact h
  | cons passo resto ih =>
    exact ih (simularPasso p passo) (simularPasso_naoNeg p passo h)

theorem catalogos_naoNeg :
    (∀ e ∈ MUNDOS, ∀ kv ∈ e.atributos, 0 ≤ kv.2)
    ∧ (∀ e ∈ ORIGENS, ∀ kv ∈ e.atributos, 0 ≤ kv.2)
    ∧ (∀ e ∈ PODERES, ∀ kv ∈ e.atributos, 0 ≤ kv.2)
    ∧ (∀ e ∈ LEGADOS, ∀ kv ∈ e.atributos, 0 ≤ kv.2) := by
  refine ⟨?_, ?_, ?_, ?_⟩ <;> decide

/-- Claim C8: for every choice of catalog options, after the creation
bonuses are summed every attribute entry and both counters are
non-negative, and this is preserved by every sequence of event
resolutions: each reachable state of a run satisfies `NaoNegativo`. -/
theorem estados_nao_negativos (nome : String) (mu ori po le : Escolha)
    (hmu : mu ∈ MUNDOS) (hori : ori ∈ ORIGENS) (hpo : po ∈ PODERES) (hle : le ∈ LEGADOS)
    (passos : List (Evento × Nat × Int)) :
    NaoNegativo (simularAventura (preparar_personagem nome mu ori po le) passos) := by
  apply simularAventura_naoNeg
  refine ⟨?_, ?_, ?_⟩
  · apply aplicarLista_naoNeg
    · intro kv hkv
      have hkv4 : kv ∈ [("vigor", (0 : Int)), ("mana", 0), ("sorte", 0), ("carisma", 0)] := hkv
      fin_cases hkv4 <;> decide
    · intro e he kv hkv
      rcases List.mem_cons.mp he with rfl | he1
      · exact catalogos_naoNeg.1 e hmu kv hkv
      · rcases List.mem_cons.mp he1 with rfl | he2
        · exact catalogos_naoNeg.2.1 e hori kv hkv
        · rcases List.mem_cons.mp he2 with rfl | he3
          · exact catalogos_naoNeg.2.2.1 e hpo kv hkv
          · rcases List.mem_cons.mp he3 with rfl | he4
            · exact catalogos_naoNeg.2.2.2 e hle kv hkv
            · cases he4
  · exact le_refl 0
  · exact le_refl 0

theorem estados_nao_negativos_witness :
    NaoNegativo (simularAventura
      (preparar_personagem "X" (MUNDOS.getD 0 escolhaVazia) (ORIGENS.getD 0 escolhaVazia)
        (PODERES.getD 0 escolhaVazia) (LEGADOS.getD 0 escolhaVazia))
      [(EVENTOS.getD 0 eventoVazio, 1, 3)]) :=
  estados_nao_negativos "X" _ _ _ _ (by decide) (by decide) (by decide) (by decide) _

theorem intercalate_go_contem (s pat : String) (as : List String) :
    ∀ acc : String, (contem acc pat ∨ pat ∈ as) →
      contem (String.intercalate.go acc s as) pat := by
  induction as with
  | nil =>
    intro acc h
    rcases h with hacc | hmem
    · exact hacc
    · cases hmem
  | cons a as ih =>
    intro acc h
    show contem (String.intercalate.go (acc ++ s ++ a) s as) pat
    apply ih
    rcases h with hacc | hmem
    · exact Or.inl (contem_append_left _ _ _ (contem_append_left _ _ _ hacc))
    · rcases List.mem_cons.mp hmem with rfl | hmem2
      · exact Or.inl (contem_append_right _ _ _ (contem_self _))
      · exact Or.inr hmem2

theorem intercalate_contem (s pat : String) (l : List String) (h : pat ∈ l) :
    contem (String.intercalate s l) pat := by
  cases l with
  | nil => cases h
  | cons a as =>
    show contem (String.intercalate.go a s as) pat
    apply intercalate_go_contem
    rcases List.mem_cons.mp h with rfl | h2
    · exact Or.inl (contem_self _)
    · exact Or.inr h2

/-- Claim C9, amended: for every character and every entry of its
attribute mapping, the epilogue content handed to `wrap` contains the
listing entry `capitalize(key) ++ ": " ++ value`, so no attribute key is
omitted.  (As `epilogo_quebra_entrada` shows, the claim is false of the
final wrapped text: the width-88 refill may break a listing entry at the
space between its label and its value.) -/
theorem epilogo_lista_atributos (p : Personagem) (kv : String × Int)
    (h : kv ∈ p.atributos) :
    contem p.epilogoConteudo (capitalize kv.1 ++ ": " ++ toString kv.2) := by
  have hr : contem p.resumoAtributos (capitalize kv.1 ++ ": " ++ toString kv.2) := by
    apply intercalate_contem
    exact List.mem_map_of_mem _ h
  rw [Personagem.epilogoConteudo]
  exact contem_append_left _ _ _ (contem_append_right _ _ _ hr)

theorem epilogo_lista_atributos_witness :
    contem exemploC9.epilogoConteudo (capitalize "vigor" ++ ": " ++ toString (4 : Int)) :=
  epilogo_lista_atributos exemploC9 ("vigor", 4) (by decide)

set_option maxRecDepth 40000 in
/-- Claim C9 counterexample: a reachable final character (the player may
enter any non-empty name, here `"A BBBBBBBBBBBB"`; all three events
resolved with glory) whose attribute mapping holds `carisma = 2`, while
the wrapped epilogue text does not contain the substring `"Carisma: 2"` -
the line refill breaks the entry between `"Carisma:"` and `"2."`. -/
theorem epilogo_quebra_entrada :
    (("carisma", (2 : Int)) ∈ exemploC9.atributos)
    ∧ ¬ contem exemploC9.epilogo (capitalize "carisma" ++ ": " ++ toString (2 : Int)) := by
  constructor
  · decide
  · decide
